import Mathlib

/-!
Shallow embedding of the local TTS engine manager (`src/tts-manager.ts`)
and the IPC speech handlers (`src/main.ts`) of the Electron wrapper.

Modelling conventions:
* Every OS or network action the code performs (signals, process kills,
  spawns, HTTP requests, file writes, scheduled timers) is recorded as an
  `Ev` value in an explicit trace returned next to the new state.
* The outcome of every external call (HTTP response shape, health-poll
  success, spawn pid) is an explicit parameter, so the functions are pure.
* JavaScript truthiness of optional string / boolean fields is modelled by
  explicit `truthy` helpers on `Option`.
* The module-level mutable variables `currentProcess`, `currentEngine`,
  `isServerReady` become the fields of `MgrState`; `nextPid` models the
  operating system's fresh-pid source consumed by `spawn`.
-/

namespace TTSWrap

/-- Engine identifiers (`type TTSEngine = 'chatterbox'`, tts-manager.ts:19). -/
inductive TTSEngine where
  | chatterbox
  deriving DecidableEq, Repr

/-- `TTSEngineConfig` (tts-manager.ts:21). -/
structure TTSEngineConfig where
  type : TTSEngine
  name : String
  port : Nat
  basePath : String
  healthEndpoint : String
  binaryName : String
  defaultModel : String
  defaultVoice : String
  args : String → Nat → List String

/-- `ENGINE_CONFIGS` (tts-manager.ts:51). -/
def ENGINE_CONFIGS : TTSEngine → TTSEngineConfig
  | .chatterbox =>
    { type := .chatterbox
      name := "Chatterbox (Local GPU)"
      port := 4123
      basePath := "/v1"
      healthEndpoint := "/health"
      binaryName := "chatterbox_server"
      defaultModel := "tts-1"
      defaultVoice := "default"
      args := fun _modelsDir port => ["--port", Nat.repr port] }

/-- `Object.values(ENGINE_CONFIGS)` as iterated by the failsafe loops. -/
def allEngineConfigs : List TTSEngineConfig := [ENGINE_CONFIGS .chatterbox]

/-- tts-manager.ts:69. -/
def HEALTH_CHECK_TIMEOUT_MS : Nat := 120000

/-- tts-manager.ts:70. -/
def HEALTH_CHECK_INTERVAL_MS : Nat := 3000

/-- tts-manager.ts:71. -/
def HOST : String := "127.0.0.1"

/-- The `AbortSignal.timeout(2000)` bound used by `detectExternalServer`
(tts-manager.ts:521). -/
def DETECT_TIMEOUT_MS : Nat := 2000

/-- `LocalTTSConfig` (tts-manager.ts:33). -/
structure LocalTTSConfig where
  engine : TTSEngine
  baseUrl : String
  model : String
  defaultVoice : String
  availableVoices : List String
  deriving DecidableEq, Repr

/-- The speech request body built by both speak handlers (main.ts:527,
main.ts:644): `input` and `response_format` always, `voice` optionally. -/
structure SpeakBody where
  input : String
  response_format : String
  voice : Option String
  deriving DecidableEq, Repr

/-- One observable OS / network / filesystem action of the code. -/
inductive Ev where
  | sigterm (pid : Nat)
  | sigkill (pid : Nat)
  | taskkillTree (pid : Nat)
  | killByName (imageName : String)
  | killByPort (port : Nat)
  | sleepMs (ms : Nat)
  | scheduleKillTimer (delayMs : Nat)
  | schedulePortCleanup (delayMs : Nat) (port : Nat)
  | mkdirModels (engineId : TTSEngine)
  | chmodBinary (engineId : TTSEngine)
  | spawned (pid : Nat)
  | healthProbe (port : Nat)
  | voicesGet (port : Nat)
  | speechPost (url : String) (body : SpeakBody)
  | fileWrite (path : String)
  deriving DecidableEq, Repr

/-- Is the event an HTTP request? -/
def Ev.isNetwork : Ev → Bool
  | .healthProbe _ => true
  | .voicesGet _ => true
  | .speechPost _ _ => true
  | _ => false

/-- Is the event the speech POST itself? -/
def Ev.isSpeechPost : Ev → Bool
  | .speechPost _ _ => true
  | _ => false

/-- The tracked child process handle: its OS pid and Node's `killed` flag
(set once `.kill()` has been issued on the handle). -/
structure ChildProcess where
  pid : Nat
  killed : Bool
  deriving DecidableEq, Repr

/-- The module-level mutable state of tts-manager.ts:77-79, plus the OS
fresh-pid source consumed by `spawn` (a freshly spawned child's pid differs
from every pid handed out before). -/
structure MgrState where
  currentProcess : Option ChildProcess
  currentEngine : Option TTSEngine
  isServerReady : Bool
  nextPid : Nat
  deriving DecidableEq, Repr

/-- `process.platform` as distinguished by the manager. -/
inductive Platform where
  | win32
  | posix
  deriving DecidableEq, Repr

/-- `killProcessOnPort` (tts-manager.ts:229): best-effort kill of whatever
is bound to the port; on both platforms the one OS action performed. -/
def killProcessOnPort (port : Nat) : List Ev := [Ev.killByPort port]

/-- The process image name used for kill-by-name (`.exe` suffix on
Windows, bare name for `pkill -f` on POSIX, tts-manager.ts:288,297). -/
def exeImageName (plat : Platform) (cfg : TTSEngineConfig) : String :=
  match plat with
  | .win32 => cfg.binaryName ++ ".exe"
  | .posix => cfg.binaryName

/-- `cleanupOrphanProcesses` (tts-manager.ts:282): kill by image name,
then clean up the engine's port. -/
def cleanupOrphanProcesses (plat : Platform) (engine : TTSEngine) : List Ev :=
  let config := ENGINE_CONFIGS engine
  Ev.killByName (exeImageName plat config) :: killProcessOnPort config.port

/-- The termination actions of `stopCurrentEngine`'s platform branch
(tts-manager.ts:334-349): forceful tree kill on Windows; SIGTERM plus a
scheduled 3-second SIGKILL-check timer on POSIX. -/
def terminateEvs (plat : Platform) (pid : Nat) : List Ev :=
  match plat with
  | .win32 => [Ev.taskkillTree pid]
  | .posix => [Ev.sigterm pid, Ev.scheduleKillTimer 3000]

/-- `stopCurrentEngine` (tts-manager.ts:317).  With no tracked process it
only sweeps every known engine's port.  Otherwise it clears
`isServerReady`, performs the platform termination, schedules the 1-second
port cleanup for the current engine, and nulls `currentProcess` and
`currentEngine` before returning. -/
def stopCurrentEngine (plat : Platform) (s : MgrState) : MgrState × List Ev :=
  match s.currentProcess with
  | none =>
      (s, allEngineConfigs.foldr (fun cfg acc => killProcessOnPort cfg.port ++ acc) [])
  | some proc =>
      let portEvs :=
        match s.currentEngine with
        | some engine => [Ev.schedulePortCleanup 1000 (ENGINE_CONFIGS engine).port]
        | none => []
      ({ s with currentProcess := none, currentEngine := none, isServerReady := false },
        terminateEvs plat proc.pid ++ portEvs)

/-- The callback scheduled by the POSIX branch of `stopCurrentEngine`
(tts-manager.ts:343-348).  It fires 3 seconds later and reads the
module-level `currentProcess` variable at that moment: it SIGKILLs the
process tracked then, when one is tracked and its `killed` flag is unset. -/
def killTimerFire (s : MgrState) : List Ev :=
  match s.currentProcess with
  | some proc => if proc.killed then [] else [Ev.sigkill proc.pid]
  | none => []

/-- `waitForHealth` (tts-manager.ts:153): polls the health endpoint until
success or the 120-second timeout.  `healthOk` abstracts the poll's
outcome; on success the module flag `isServerReady` is set (line 167). -/
def waitForHealth (healthOk : Bool) (s : MgrState) : MgrState × Bool :=
  if healthOk then ({ s with isServerReady := true }, true) else (s, false)

/-- One element of the `voices` array returned by the engine
(tts-manager.ts:200-203); only the `name` field is consumed. -/
structure VoiceObj where
  name : String
  deriving DecidableEq, Repr

/-- Outcome of the `GET /voices` call: a thrown network / JSON error, or a
response with its `ok` flag and optional `voices` array. -/
inductive VoicesOutcome where
  | failure
  | response (ok : Bool) (voices : Option (List VoiceObj))
  deriving DecidableEq, Repr

/-- `fetchVoices` (tts-manager.ts:191).  Every throw site sits inside the
`try`, whose `catch` falls through to the default-voice return, so the
function is total (never raises), which the `List String` codomain
reflects. -/
def fetchVoices (engine : TTSEngine) (o : VoicesOutcome) : List String :=
  let config := ENGINE_CONFIGS engine
  match o with
  | .failure => [config.defaultVoice]
  | .response ok voices =>
      if ok then
        match voices with
        | some vs =>
            if 0 < vs.length then vs.map (fun v => v.name) else [config.defaultVoice]
        | none => [config.defaultVoice]
      else [config.defaultVoice]

/-- Outcome of the external-detection `GET /health` call
(tts-manager.ts:520-529): a thrown error (including the 2-second abort),
or a response with its `ok` flag and the two payload fields read. -/
inductive HealthOutcome where
  | failure
  | response (ok : Bool) (status : Option String) (model_loaded : Option Bool)
  deriving DecidableEq, Repr

/-- JS truthiness of the optional boolean `model_loaded` field. -/
def truthyFlag : Option Bool → Bool
  | some b => b
  | none => false

/-- `detectExternalServer` (tts-manager.ts:517): probes the chatterbox
health endpoint with a 2-second bound and accepts only a successful
response whose payload has `status === 'healthy'` and a truthy
`model_loaded`. -/
def detectExternalServer (o : HealthOutcome) : Option TTSEngine × List Ev :=
  let probe := [Ev.healthProbe (ENGINE_CONFIGS .chatterbox).port]
  match o with
  | .failure => (none, probe)
  | .response ok status ml =>
      if ok then
        if status == some "healthy" && truthyFlag ml then (some .chatterbox, probe)
        else (none, probe)
      else (none, probe)

/-- The engine id as interpolated into log / error strings. -/
def engineIdStr : TTSEngine → String
  | .chatterbox => "chatterbox"

/-- `startEngine` (tts-manager.ts:368).  `installed` abstracts the
`fs.existsSync(binaryPath)` check, `healthOk` the health-poll outcome and
`vOut` the voices response.  The returned trace records, in order: the
stop of a previously tracked engine plus the 2-second wait, the orphan
cleanup, models-directory / chmod preparation, the spawn, and then either
the voices fetch (success) or the failure-path stop. -/
def startEngine (plat : Platform) (installed : Bool) (healthOk : Bool)
    (vOut : VoicesOutcome) (engine : TTSEngine) (s : MgrState) :
    Except String LocalTTSConfig × MgrState × List Ev :=
  let stopStep :=
    match s.currentProcess with
    | some _ =>
        let r := stopCurrentEngine plat s
        (r.1, r.2 ++ [Ev.sleepMs 2000])
    | none => (s, ([] : List Ev))
  let s1 := stopStep.1
  let evs1 := stopStep.2 ++ cleanupOrphanProcesses plat engine
  let config := ENGINE_CONFIGS engine
  if installed = false then
    (Except.error (engineIdStr engine ++ " binary not found"), s1, evs1)
  else
    let prepEvs :=
      Ev.mkdirModels engine ::
        (match plat with
          | .posix => [Ev.chmodBinary engine]
          | .win32 => [])
    let pid := s1.nextPid
    let s2 : MgrState :=
      { currentProcess := some { pid := pid, killed := false }
        currentEngine := some engine
        isServerReady := s1.isServerReady
        nextPid := s1.nextPid + 1 }
    let hr := waitForHealth healthOk s2
    if hr.2 then
      let voices := fetchVoices engine vOut
      (Except.ok
        { engine := engine
          baseUrl := "http://" ++ HOST ++ ":" ++ Nat.repr config.port ++ config.basePath
          model := config.defaultModel
          defaultVoice := config.defaultVoice
          availableVoices := voices },
        hr.1,
        evs1 ++ prepEvs ++ [Ev.spawned pid, Ev.voicesGet config.port])
    else
      let r := stopCurrentEngine plat hr.1
      (Except.error (engineIdStr engine ++ " failed to start within timeout"), r.1,
        evs1 ++ prepEvs ++ [Ev.spawned pid] ++ r.2)

/-- The status record returned by `getCurrentStatus` (tts-manager.ts:545). -/
structure EngineStatus where
  running : Bool
  ready : Bool
  engine : Option TTSEngine
  pid : Option Nat
  deriving DecidableEq, Repr

/-- `getCurrentStatus` (tts-manager.ts:545): a tracked managed process is
reported directly (no network traffic); otherwise the external detector is
consulted. -/
def getCurrentStatus (s : MgrState) (hOut : HealthOutcome) : EngineStatus × List Ev :=
  match s.currentProcess with
  | some proc =>
      ({ running := true, ready := s.isServerReady
         engine := s.currentEngine, pid := some proc.pid }, [])
  | none =>
      let d := detectExternalServer hOut
      match d.1 with
      | some engine =>
          ({ running := true, ready := true, engine := some engine, pid := none }, d.2)
      | none =>
          ({ running := false, ready := false, engine := none, pid := none }, d.2)

/-- `getCurrentBaseUrl` (tts-manager.ts:616): managed engine first,
external detection otherwise. -/
def getCurrentBaseUrl (s : MgrState) (hOut : HealthOutcome) : Option String × List Ev :=
  match s.currentEngine with
  | some engine =>
      (some ("http://" ++ HOST ++ ":" ++ Nat.repr (ENGINE_CONFIGS engine).port), [])
  | none =>
      let d := detectExternalServer hOut
      match d.1 with
      | some engine =>
          (some ("http://" ++ HOST ++ ":" ++ Nat.repr (ENGINE_CONFIGS engine).port), d.2)
      | none => (none, d.2)

/-- JS truthiness of the `voice` argument: absent or empty is falsy. -/
def truthyVoice : Option String → Bool
  | some v => !(v == "")
  | none => false

/-- The request body constructed identically by both speak handlers
(main.ts:527-535 and main.ts:644-652): `input` and `response_format`
always; the `voice` key only when the argument is truthy and not the
string `default`. -/
def speakRequestBody (text : String) (voice : Option String) : SpeakBody :=
  { input := text
    response_format := "wav"
    voice := if truthyVoice voice && !(voice == some "default") then voice else none }

/-- Outcome of the speech POST: thrown error, or a response with `ok`,
its status code and the audio byte count. -/
inductive SpeechOutcome where
  | failure
  | response (ok : Bool) (statusCode : Nat) (byteCount : Nat)
  deriving DecidableEq, Repr

/-- The structured result returned over IPC by both speak handlers. -/
structure SpeakResult where
  success : Bool
  audioUrl : Option String
  error : Option String
  deriving DecidableEq, Repr

/-- Temp file name of the `tts:speak` handler (main.ts:673). -/
def ttsAudioFileName (now : Nat) : String :=
  "tts-audio-" ++ Nat.repr now ++ ".wav"

/-- Temp file name of the `orpheus:speak` handler (main.ts:555). -/
def orpheusAudioFileName (now : Nat) : String :=
  "orpheus-tts-" ++ Nat.repr now ++ ".wav"

/-- `path.join(tempDir, fileName)`. -/
def tempFilePath (tempDir fileName : String) : String :=
  tempDir ++ "/" ++ fileName

/-- The `tts:speak` IPC handler (main.ts:624).  NOTE the order: it
resolves the base URL (which may perform the external-detection probe)
before the empty-text check.  `now` is the `Date.now()` value read when
the audio is persisted. -/
def ttsSpeak (s : MgrState) (hOut : HealthOutcome) (sOut : SpeechOutcome)
    (tempDir : String) (now : Nat) (text : String) (voice : Option String) :
    SpeakResult × List Ev :=
  let b := getCurrentBaseUrl s hOut
  match b.1 with
  | none =>
      ({ success := false, audioUrl := none, error := some "No TTS engine running" }, b.2)
  | some baseUrl =>
      if text == "" then
        ({ success := false, audioUrl := none, error := some "Empty text" }, b.2)
      else
        let body := speakRequestBody text voice
        let postEv := Ev.speechPost (baseUrl ++ "/v1/audio/speech") body
        match sOut with
        | .failure =>
            -- `catch` branch: `String(error)` rendered abstractly
            ({ success := false, audioUrl := none, error := some "fetch failed" },
              b.2 ++ [postEv])
        | .response ok statusCode _byteCount =>
            if ok then
              let fileName := ttsAudioFileName now
              ({ success := true
                 audioUrl := some ("orpheus-audio://" ++ fileName)
                 error := none },
                b.2 ++ [postEv, Ev.fileWrite (tempFilePath tempDir fileName)])
            else
              ({ success := false, audioUrl := none
                 error := some ("HTTP " ++ Nat.repr statusCode) },
                b.2 ++ [postEv])

/-- The legacy `orpheus:speak` IPC handler (main.ts:502).  Unlike
`tts:speak`, the empty-text check comes first, before any resolution. -/
def orpheusSpeak (s : MgrState) (hOut : HealthOutcome) (sOut : SpeechOutcome)
    (tempDir : String) (now : Nat) (text : String) (voice : Option String) :
    SpeakResult × List Ev :=
  if text == "" then
    ({ success := false, audioUrl := none, error := some "Empty text" }, [])
  else
    let b := getCurrentBaseUrl s hOut
    match b.1 with
    | none =>
        ({ success := false, audioUrl := none, error := some "No TTS server available" }, b.2)
    | some baseUrl =>
        let body := speakRequestBody text voice
        let postEv := Ev.speechPost (baseUrl ++ "/v1/audio/speech") body
        match sOut with
        | .failure =>
            ({ success := false, audioUrl := none, error := some "fetch failed" },
              b.2 ++ [postEv])
        | .response ok statusCode _byteCount =>
            if ok then
              let fileName := orpheusAudioFileName now
              ({ success := true
                 audioUrl := some ("orpheus-audio://" ++ fileName)
                 error := none },
                b.2 ++ [postEv, Ev.fileWrite (tempFilePath tempDir fileName)])
            else
              ({ success := false, audioUrl := none
                 error := some ("HTTP " ++ Nat.repr statusCode) },
                b.2 ++ [postEv])

/-- The result shape of the `tts:getVoices` IPC handler. -/
structure VoicesResult where
  voices : List String
  error : Option String
  deriving DecidableEq, Repr

/-- The `tts:getVoices` IPC handler (main.ts:687): an absent engine or a
not-ready status short-circuits to an empty list with an error, without
the voices fetch; otherwise `fetchVoices` is consulted (its `catch`
branch is dead because `fetchVoices` never throws). -/
def ttsGetVoices (s : MgrState) (hOut : HealthOutcome) (vOut : VoicesOutcome) :
    VoicesResult × List Ev :=
  let st := getCurrentStatus s hOut
  match st.1.engine with
  | none => ({ voices := [], error := some "No TTS engine running" }, st.2)
  | some engine =>
      if st.1.ready then
        ({ voices := fetchVoices engine vOut, error := none },
          st.2 ++ [Ev.voicesGet (ENGINE_CONFIGS engine).port])
      else
        ({ voices := [], error := some "No TTS engine running" }, st.2)

/-! Specification-side definitions, written from the claims' words, to be
compared with the source-side definitions above. -/

/-- Spec reading of the `voice` body field: absent exactly when the caller
passed no voice, an empty voice, or the string `default`; the given name
otherwise. -/
def speakVoiceFieldSpec (voice : Option String) : Option String :=
  if voice = none ∨ voice = some "" ∨ voice = some "default" then none else voice

/-- Spec reading of `fetchVoices`: the engine-reported names when the
response carries a non-empty `voices` array, the one-element default-voice
list in every other case. -/
def fetchVoicesSpec (engine : TTSEngine) (o : VoicesOutcome) : List String :=
  match o with
  | .response true (some vs) =>
      if vs ≠ [] then vs.map VoiceObj.name else [(ENGINE_CONFIGS engine).defaultVoice]
  | _ => [(ENGINE_CONFIGS engine).defaultVoice]

/-- Spec reading of `getStatus`: a tracked managed process is reported
directly; otherwise a detected external instance yields a ready status
with no pid; otherwise everything is off. -/
def getStatusSpec (s : MgrState) (hOut : HealthOutcome) : EngineStatus :=
  match s.currentProcess with
  | some proc =>
      { running := true, ready := s.isServerReady
        engine := s.currentEngine, pid := some proc.pid }
  | none =>
      match (detectExternalServer hOut).1 with
      | some engineId =>
          { running := true, ready := true, engine := some engineId, pid := none }
      | none =>
          { running := false, ready := false, engine := none, pid := none }

/-- Decimal decoding of a digit string, the left inverse used to show the
timestamp-derived temp file names are injective in the timestamp. -/
def decodeDigits (cs : List Char) : Nat :=
  cs.foldl (fun a c => 10 * a + (c.toNat - 48)) 0

/-! ## Theorems -/

/-- The external-detection probe is issued exactly once whatever the
outcome. -/
theorem detect_trace_eq (o : HealthOutcome) :
    (detectExternalServer o).2 = [Ev.healthProbe 4123] := by
  cases o with
  | failure => rfl
  | response ok status ml =>
      simp only [detectExternalServer]
      split <;> first | rfl | (split <;> rfl)

/-- Claim C4: for every text and voice argument, the speech request body
built by both speak handlers has `input` equal to the text,
`response_format` equal to `wav`, and a `voice` field exactly when the
voice is neither absent, empty, nor the string `default`, in which case it
equals the given name. -/
theorem claim4_speak_body (text : String) (voice : Option String) :
    (speakRequestBody text voice).input = text
    ∧ (speakRequestBody text voice).response_format = "wav"
    ∧ (speakRequestBody text voice).voice = speakVoiceFieldSpec voice := by
  refine ⟨rfl, rfl, ?_⟩
  cases voice with
  | none => rfl
  | some v =>
      by_cases h1 : v = ""
      · subst h1
        simp [speakRequestBody, speakVoiceFieldSpec, truthyVoice]
      · by_cases h2 : v = "default"
        · subst h2
          simp [speakRequestBody, speakVoiceFieldSpec, truthyVoice]
        · simp [speakRequestBody, speakVoiceFieldSpec, truthyVoice, h1, h2]

/-- Claim C6: `fetchVoices` is total (never raises), always returns a
non-empty list, and agrees with the spec's description: the reported
names for a successful response with a non-empty `voices` array, the
one-element default-voice list in every other case. -/
theorem claim6_fetchVoices (engine : TTSEngine) (o : VoicesOutcome) :
    fetchVoices engine o ≠ [] ∧ fetchVoices engine o = fetchVoicesSpec engine o := by
  cases o with
  | failure => exact ⟨by simp [fetchVoices], rfl⟩
  | response ok voices =>
      cases ok with
      | false => exact ⟨by simp [fetchVoices], rfl⟩
      | true =>
          cases voices with
          | none => exact ⟨by simp [fetchVoices], rfl⟩
          | some vs =>
              by_cases h : vs = []
              · subst h
                exact ⟨by simp [fetchVoices], by simp [fetchVoices, fetchVoicesSpec]⟩
              · have hl : 0 < vs.length := List.length_pos.mpr h
                constructor
                · simp only [fetchVoices, if_pos hl, if_true]
                  simpa using h
                · simp [fetchVoices, fetchVoicesSpec, hl, h]

/-- Claim C7: `detectExternalServer` returns an engine id exactly when
the bounded-timeout (2 s) health probe produced a successful response
whose payload has `status = "healthy"` and a true `model_loaded` flag;
the probe itself is always issued once against the engine port. -/
theorem claim7_detect (o : HealthOutcome) :
    ((detectExternalServer o).1 = some TTSEngine.chatterbox
        ↔ o = HealthOutcome.response true (some "healthy") (some true))
    ∧ (detectExternalServer o).2 = [Ev.healthProbe 4123]
    ∧ DETECT_TIMEOUT_MS = 2000 := by
  refine ⟨?_, ?_, rfl⟩
  · cases o with
    | failure => simp [detectExternalServer]
    | response ok status ml =>
        cases ok with
        | false => simp [detectExternalServer]
        | true =>
            cases ml with
            | none => simp [detectExternalServer, truthyFlag]
            | some b =>
                cases b with
                | false => simp [detectExternalServer, truthyFlag]
                | true =>
                    by_cases h : status = some "healthy"
                    · subst h; simp [detectExternalServer, truthyFlag]
                    · simp [detectExternalServer, truthyFlag, h]
  · cases o with
    | failure => rfl
    | response ok status ml =>
        simp only [detectExternalServer]
        split <;> first | rfl | (split <;> rfl)

/-- Claim C8: `getCurrentStatus` reports a tracked managed process
directly (running, the live readiness flag, the tracked engine and pid)
with no network traffic; with no managed process it reports a detected
external engine as running and ready with no pid, and otherwise reports
everything off — matching the spec-side `getStatusSpec`. -/
theorem claim8_status (s : MgrState) (hOut : HealthOutcome) :
    (getCurrentStatus s hOut).1 = getStatusSpec s hOut
    ∧ ((getCurrentStatus s hOut).2 =
        match s.currentProcess with
        | some _ => ([] : List Ev)
        | none => (detectExternalServer hOut).2) := by
  obtain ⟨cp, ce, rdy, np⟩ := s
  cases cp with
  | some proc => exact ⟨rfl, rfl⟩
  | none =>
      rcases hd : (detectExternalServer hOut).1 with _ | engine
      · exact ⟨by simp [getCurrentStatus, getStatusSpec, hd],
          by simp [getCurrentStatus, hd]⟩
      · exact ⟨by simp [getCurrentStatus, getStatusSpec, hd],
          by simp [getCurrentStatus, hd]⟩

/-- Claim C8 witness at a concrete managed state. -/
theorem claim8_status_witness :
    (getCurrentStatus ⟨some ⟨9, false⟩, some .chatterbox, true, 10⟩ HealthOutcome.failure).1
      = getStatusSpec ⟨some ⟨9, false⟩, some .chatterbox, true, 10⟩ HealthOutcome.failure :=
  (claim8_status ⟨some ⟨9, false⟩, some .chatterbox, true, 10⟩ HealthOutcome.failure).1

/-- Claim C10: whenever the resolved status has no engine or is not
ready, the `tts:getVoices` handler returns the empty voice list with the
explicit error, and performs no voices fetch (its traffic is exactly the
status resolution's). -/
theorem claim10_getVoices_gate (s : MgrState) (hOut : HealthOutcome) (vOut : VoicesOutcome)
    (h : (getCurrentStatus s hOut).1.engine = none
        ∨ (getCurrentStatus s hOut).1.ready = false) :
    (ttsGetVoices s hOut vOut).1 = { voices := [], error := some "No TTS engine running" }
    ∧ (ttsGetVoices s hOut vOut).2 = (getCurrentStatus s hOut).2 := by
  rcases he : (getCurrentStatus s hOut).1.engine with _ | engine
  · constructor <;> simp [ttsGetVoices, he]
  · have hr : (getCurrentStatus s hOut).1.ready = false := by
      rcases h with h | h
      · rw [he] at h; cases h
      · exact h
    constructor <;> simp [ttsGetVoices, he, hr]

/-- Claim C10 witness at the empty manager state. -/
theorem claim10_getVoices_gate_witness :
    (ttsGetVoices ⟨none, none, false, 0⟩ HealthOutcome.failure VoicesOutcome.failure).1
      = { voices := [], error := some "No TTS engine running" } :=
  (claim10_getVoices_gate ⟨none, none, false, 0⟩ HealthOutcome.failure VoicesOutcome.failure
    (Or.inl rfl)).1

/-- Claim C3 counterexample: with no managed engine and empty text, the
`tts:speak` handler's trace contains a network call (the external
detection health probe fired while resolving the base URL) before the
rejection, and the rejection does not even carry the empty-text error —
refuting "no network call of any kind is attempted before that
rejection" for every manager state. -/
theorem claim3_counterexample :
    (ttsSpeak ⟨none, none, false, 0⟩ HealthOutcome.failure SpeechOutcome.failure
        "/tmp" 0 "" none).2 = [Ev.healthProbe 4123]
    ∧ (ttsSpeak ⟨none, none, false, 0⟩ HealthOutcome.failure SpeechOutcome.failure
        "/tmp" 0 "" none).1
      = { success := false, audioUrl := none, error := some "No TTS engine running" } :=
  ⟨rfl, rfl⟩

/-- Claim C3 amended: both speak handlers return a structured
`success = false` result with an explicit error for empty text and never
issue the speech POST; the legacy `orpheus:speak` handler performs no
network call at all before rejecting, while `tts:speak` first resolves
the base URL, whose traffic (at most the one external-detection health
probe, never a speech POST) is the only traffic of the call. -/
theorem claim3_amended (s : MgrState) (hOut : HealthOutcome) (sOut : SpeechOutcome)
    (tempDir : String) (now : Nat) (voice : Option String) :
    (orpheusSpeak s hOut sOut tempDir now "" voice).1.success = false
    ∧ (orpheusSpeak s hOut sOut tempDir now "" voice).1.error = some "Empty text"
    ∧ (orpheusSpeak s hOut sOut tempDir now "" voice).2 = []
    ∧ (ttsSpeak s hOut sOut tempDir now "" voice).1.success = false
    ∧ (ttsSpeak s hOut sOut tempDir now "" voice).1.error ≠ none
    ∧ (ttsSpeak s hOut sOut tempDir now "" voice).2 = (getCurrentBaseUrl s hOut).2
    ∧ ((getCurrentBaseUrl s hOut).2.all fun ev => !ev.isSpeechPost) = true := by
  refine ⟨rfl, rfl, rfl, ?_, ?_, ?_, ?_⟩
  · rcases hb : (getCurrentBaseUrl s hOut).1 with _ | url <;> simp [ttsSpeak, hb]
  · rcases hb : (getCurrentBaseUrl s hOut).1 with _ | url <;> simp [ttsSpeak, hb]
  · rcases hb : (getCurrentBaseUrl s hOut).1 with _ | url <;> simp [ttsSpeak, hb]
  · obtain ⟨cp, ce, rdy, np⟩ := s
    cases ce with
    | some engine => rfl
    | none =>
        rcases hd : (detectExternalServer hOut).1 with _ | engine <;>
          simp [getCurrentBaseUrl, hd, detect_trace_eq, Ev.isSpeechPost]

/-- Claim C5 (the code's actual behaviour at the spec's failing input):
on POSIX, stopping a tracked process sends it SIGTERM and schedules the
3-second SIGKILL check, but the handle variable is nulled synchronously,
so when the timer fires with no intervening start it finds no tracked
process and sends no SIGKILL at all — and after a restart has re-assigned
the variable, the same callback would SIGKILL the newly spawned process
instead of the old one. -/
theorem claim5_sigkill_never_fires (s : MgrState) (proc : ChildProcess)
    (hp : s.currentProcess = some proc) :
    Ev.sigterm proc.pid ∈ (stopCurrentEngine .posix s).2
    ∧ Ev.scheduleKillTimer 3000 ∈ (stopCurrentEngine .posix s).2
    ∧ (stopCurrentEngine .posix s).1.currentProcess = none
    ∧ killTimerFire (stopCurrentEngine .posix s).1 = []
    ∧ (∀ q : ChildProcess, q.killed = false →
        killTimerFire { (stopCurrentEngine .posix s).1 with currentProcess := some q }
          = [Ev.sigkill q.pid]) := by
  obtain ⟨cp, ce, rdy, np⟩ := s
  simp only [MgrState.currentProcess] at hp
  subst hp
  refine ⟨?_, ?_, rfl, rfl, ?_⟩
  · cases ce <;> simp [stopCurrentEngine, terminateEvs]
  · cases ce <;> simp [stopCurrentEngine, terminateEvs]
  · intro q hq
    cases ce <;> simp [stopCurrentEngine, killTimerFire, hq]

/-- Claim C5 witness at a concrete tracked process. -/
theorem claim5_sigkill_never_fires_witness :
    killTimerFire (stopCurrentEngine .posix ⟨some ⟨7, false⟩, some .chatterbox, true, 8⟩).1
      = [] :=
  (claim5_sigkill_never_fires ⟨some ⟨7, false⟩, some .chatterbox, true, 8⟩ ⟨7, false⟩
    rfl).2.2.2.1

/-- For decimal digits, `Nat.digitChar` is code 48 plus the digit. -/
theorem digitChar_toNat_of_lt (n : Nat) (h : n < 10) :
    (Nat.digitChar n).toNat = 48 + n := by
  interval_cases n <;> rfl

/-- Folding the decimal decoder over the digits that `Nat.toDigitsCore`
prepends recovers the encoded number under any accumulator. -/
theorem toDigitsCore_decode (fuel : Nat) :
    ∀ (n : Nat) (ds : List Char) (a : Nat), n < fuel →
      ∃ k, 0 < k ∧
        (Nat.toDigitsCore 10 fuel n ds).foldl (fun a c => 10 * a + (c.toNat - 48)) a
          = ds.foldl (fun a c => 10 * a + (c.toNat - 48)) (a * 10 ^ k + n) := by
  induction fuel with
  | zero => intro n ds a h; omega
  | succ f ih =>
      intro n ds a h
      by_cases h0 : n / 10 = 0
      · have hn : n < 10 := by omega
        refine ⟨1, Nat.one_pos, ?_⟩
        simp only [Nat.toDigitsCore, h0, if_true, List.foldl_cons]
        rw [Nat.mod_eq_of_lt hn, digitChar_toNat_of_lt n hn]
        norm_num [Nat.mul_comm]
      · have hpos : 0 < n := by omega
        have hlt : n / 10 < f := by
          have := Nat.div_lt_self hpos (by norm_num : 1 < 10)
          omega
        obtain ⟨k, hk, hrec⟩ := ih (n / 10) (Nat.digitChar (n % 10) :: ds) a hlt
        refine ⟨k + 1, by omega, ?_⟩
        simp only [Nat.toDigitsCore, h0, if_false]
        rw [hrec, List.foldl_cons,
          digitChar_toNat_of_lt (n % 10) (Nat.mod_lt n (by norm_num))]
        have hdm : 10 * (n / 10) + n % 10 = n := Nat.div_add_mod n 10
        have e1 : 10 * (a * 10 ^ k + n / 10) + ((48 + n % 10) - 48)
            = a * 10 ^ (k + 1) + (10 * (n / 10) + n % 10) := by
          have : (48 + n % 10) - 48 = n % 10 := by omega
          rw [this, pow_succ]
          ring
        rw [e1, hdm]

/-- Decoding the decimal rendering of a number recovers it. -/
theorem decodeDigits_toDigits (n : Nat) : decodeDigits (Nat.toDigits 10 n) = n := by
  obtain ⟨k, -, h⟩ := toDigitsCore_decode (n + 1) n [] 0 (Nat.lt_succ_self n)
  simpa [decodeDigits, Nat.toDigits] using h

/-- `Nat.repr` (hence numeric string interpolation) is injective. -/
theorem nat_repr_injective {m n : Nat} (h : Nat.repr m = Nat.repr n) : m = n := by
  have hdata : Nat.toDigits 10 m = Nat.toDigits 10 n := by
    have hd := congrArg String.data h
    simpa [Nat.repr, List.asString] using hd
  have := congrArg decodeDigits hdata
  simpa [decodeDigits_toDigits] using this

/-- Strings sharing a literal head and tail around differing middles are
distinct; stated as cancellation of a common affix. -/
theorem affix_cancel {p q a b : String} (h : p ++ a ++ q = p ++ b ++ q) : a = b := by
  have hd := congrArg String.data h
  simp only [String.data_append, List.append_assoc,
    List.append_cancel_left_eq, List.append_cancel_right_eq] at hd
  cases a; cases b
  exact congrArg String.mk hd

/-- `path.join` with a fixed directory is injective in the file name. -/
theorem tempFilePath_inj {d f₁ f₂ : String} (h : tempFilePath d f₁ = tempFilePath d f₂) :
    f₁ = f₂ := by
  have hd := congrArg String.data h
  simp only [tempFilePath, String.data_append, List.append_assoc,
    List.append_cancel_left_eq] at hd
  cases f₁; cases f₂
  exact congrArg String.mk hd

/-- The `tts:speak` temp file name is injective in the timestamp. -/
theorem ttsAudioFileName_injective {t₁ t₂ : Nat}
    (h : ttsAudioFileName t₁ = ttsAudioFileName t₂) : t₁ = t₂ :=
  nat_repr_injective (affix_cancel h)

/-- The `orpheus:speak` temp file name is injective in the timestamp. -/
theorem orpheusAudioFileName_injective {t₁ t₂ : Nat}
    (h : orpheusAudioFileName t₁ = orpheusAudioFileName t₂) : t₁ = t₂ :=
  nat_repr_injective (affix_cancel h)

/-- Claim C9 counterexample: two distinct successful `tts:speak` calls
(different texts) completing at the same millisecond timestamp write the
same temp file path, refuting "two distinct successful speak calls never
write to the same file path". -/
theorem claim9_counterexample :
    ((ttsSpeak ⟨some ⟨5, false⟩, some .chatterbox, true, 6⟩ HealthOutcome.failure
        (SpeechOutcome.response true 200 4) "/tmp" 1000 "a" none).1.success = true)
    ∧ ((ttsSpeak ⟨some ⟨5, false⟩, some .chatterbox, true, 6⟩ HealthOutcome.failure
        (SpeechOutcome.response true 200 4) "/tmp" 1000 "b" none).1.success = true)
    ∧ "a" ≠ "b"
    ∧ Ev.fileWrite (tempFilePath "/tmp" (ttsAudioFileName 1000))
        ∈ (ttsSpeak ⟨some ⟨5, false⟩, some .chatterbox, true, 6⟩ HealthOutcome.failure
            (SpeechOutcome.response true 200 4) "/tmp" 1000 "a" none).2
    ∧ Ev.fileWrite (tempFilePath "/tmp" (ttsAudioFileName 1000))
        ∈ (ttsSpeak ⟨some ⟨5, false⟩, some .chatterbox, true, 6⟩ HealthOutcome.failure
            (SpeechOutcome.response true 200 4) "/tmp" 1000 "b" none).2 := by
  refine ⟨rfl, rfl, by decide, by decide, by decide⟩

/-- Claim C9 amended: each successful speak call persists the audio to a
temp file named from the millisecond timestamp read at completion and
returns a protocol URL referencing that file rather than the bytes; two
successful calls with distinct timestamps never write to the same path
(calls within the same millisecond collide, as the counterexample
shows). -/
theorem claim9_amended (t₁ t₂ statusCode byteCount : Nat) (s : MgrState)
    (engine : TTSEngine) (hOut : HealthOutcome) (tempDir text : String)
    (voice : Option String) (h12 : t₁ ≠ t₂) (he : s.currentEngine = some engine)
    (htext : text ≠ "") :
    tempFilePath tempDir (ttsAudioFileName t₁) ≠ tempFilePath tempDir (ttsAudioFileName t₂)
    ∧ tempFilePath tempDir (orpheusAudioFileName t₁)
        ≠ tempFilePath tempDir (orpheusAudioFileName t₂)
    ∧ (ttsSpeak s hOut (SpeechOutcome.response true statusCode byteCount)
        tempDir t₁ text voice).1.audioUrl
        = some ("orpheus-audio://" ++ ttsAudioFileName t₁)
    ∧ Ev.fileWrite (tempFilePath tempDir (ttsAudioFileName t₁))
        ∈ (ttsSpeak s hOut (SpeechOutcome.response true statusCode byteCount)
            tempDir t₁ text voice).2 := by
  refine ⟨fun hc => h12 (ttsAudioFileName_injective (tempFilePath_inj hc)),
    fun hc => h12 (orpheusAudioFileName_injective (tempFilePath_inj hc)), ?_, ?_⟩
  · simp [ttsSpeak, getCurrentBaseUrl, he, htext]
  · simp [ttsSpeak, getCurrentBaseUrl, he, htext]

/-- Claim C9 amended witness at concrete distinct timestamps. -/
theorem claim9_amended_witness :
    tempFilePath "/tmp" (ttsAudioFileName 1) ≠ tempFilePath "/tmp" (ttsAudioFileName 2) :=
  (claim9_amended 1 2 200 4 ⟨some ⟨5, false⟩, some .chatterbox, true, 6⟩ .chatterbox
    HealthOutcome.failure "/tmp" "hi" none (by decide) rfl (by decide)).1

/-- Claim C1: the tracked handle is a single optional slot by
construction, so at most one managed process is tracked at any instant;
when a process is tracked at `startEngine`, the whole trace is the stop of
that process (whose platform termination events head the stop segment),
then the 2-second wait, then orphan cleanup and spawn preparation, and
only then the spawn of the fresh pid; the pid tracked after the
successful restart differs from the pid tracked before. -/
theorem claim1_restart_stops_then_spawns (plat : Platform) (vOut : VoicesOutcome)
    (s : MgrState) (proc : ChildProcess) (hp : s.currentProcess = some proc)
    (hwf : proc.pid < s.nextPid) :
    (startEngine plat true true vOut .chatterbox s).2.1.currentProcess
        = some { pid := s.nextPid, killed := false }
    ∧ (startEngine plat true true vOut .chatterbox s).2.1.currentEngine
        = some .chatterbox
    ∧ s.nextPid ≠ proc.pid
    ∧ (∃ rest, (stopCurrentEngine plat s).2 = terminateEvs plat proc.pid ++ rest)
    ∧ (startEngine plat true true vOut .chatterbox s).2.2
        = (stopCurrentEngine plat s).2 ++ [Ev.sleepMs 2000]
            ++ cleanupOrphanProcesses plat .chatterbox
            ++ (Ev.mkdirModels .chatterbox ::
                (match plat with
                  | .posix => [Ev.chmodBinary .chatterbox]
                  | .win32 => []))
            ++ [Ev.spawned s.nextPid, Ev.voicesGet 4123] := by
  obtain ⟨cp, ce, rdy, np⟩ := s
  simp only [MgrState.currentProcess] at hp
  subst hp
  have hwf' : proc.pid < np := hwf
  refine ⟨rfl, rfl, by omega, ?_, ?_⟩
  · cases ce with
    | none => exact ⟨[], rfl⟩
    | some engine => exact ⟨[Ev.schedulePortCleanup 1000 (ENGINE_CONFIGS engine).port], rfl⟩
  · cases plat <;> cases ce <;>
      simp [startEngine, stopCurrentEngine, waitForHealth, cleanupOrphanProcesses,
        killProcessOnPort, exeImageName, terminateEvs, ENGINE_CONFIGS, List.append_assoc]

/-- Claim C1 witness at a concrete tracked process. -/
theorem claim1_restart_stops_then_spawns_witness :
    (startEngine .posix true true VoicesOutcome.failure .chatterbox
        ⟨some ⟨7, false⟩, some .chatterbox, true, 42⟩).2.1.currentProcess
      = some ⟨42, false⟩ :=
  (claim1_restart_stops_then_spawns .posix VoicesOutcome.failure
    ⟨some ⟨7, false⟩, some .chatterbox, true, 42⟩ ⟨7, false⟩ rfl (by decide)).1

/-- Claim C2: when the health poll (bounded by the 120-second timeout)
never succeeds after spawning, `startEngine` returns the error result,
and the final state has `currentProcess`, `currentEngine` and
`isServerReady` all cleared; the trace shows the just-spawned pid being
terminated (platform termination events plus the port-cleanup timer)
after its spawn. -/
theorem claim2_timeout_cleans_up (plat : Platform) (vOut : VoicesOutcome) (s : MgrState) :
    (startEngine plat true false vOut .chatterbox s).1
        = Except.error "chatterbox failed to start within timeout"
    ∧ (startEngine plat true false vOut .chatterbox s).2.1.currentProcess = none
    ∧ (startEngine plat true false vOut .chatterbox s).2.1.currentEngine = none
    ∧ (startEngine plat true false vOut .chatterbox s).2.1.isServerReady = false
    ∧ (∃ pfx, (startEngine plat true false vOut .chatterbox s).2.2
        = pfx ++ [Ev.spawned s.nextPid] ++ terminateEvs plat s.nextPid
            ++ [Ev.schedulePortCleanup 1000 4123])
    ∧ HEALTH_CHECK_TIMEOUT_MS = 120000 := by
  obtain ⟨cp, ce, rdy, np⟩ := s
  cases cp with
  | none =>
      refine ⟨rfl, rfl, rfl, rfl, ?_, rfl⟩
      refine ⟨cleanupOrphanProcesses plat .chatterbox
          ++ (Ev.mkdirModels .chatterbox ::
            (match plat with
              | .posix => [Ev.chmodBinary .chatterbox]
              | .win32 => [])), ?_⟩
      cases plat <;>
        simp [startEngine, stopCurrentEngine, waitForHealth, cleanupOrphanProcesses,
          killProcessOnPort, exeImageName, terminateEvs, ENGINE_CONFIGS, List.append_assoc]
  | some proc =>
      refine ⟨rfl, rfl, rfl, rfl, ?_, rfl⟩
      refine ⟨(stopCurrentEngine plat ⟨some proc, ce, rdy, np⟩).2 ++ [Ev.sleepMs 2000]
          ++ cleanupOrphanProcesses plat .chatterbox
          ++ (Ev.mkdirModels .chatterbox ::
            (match plat with
              | .posix => [Ev.chmodBinary .chatterbox]
              | .win32 => [])), ?_⟩
      cases plat <;> cases ce <;>
        simp [startEngine, stopCurrentEngine, waitForHealth, cleanupOrphanProcesses,
          killProcessOnPort, exeImageName, terminateEvs, ENGINE_CONFIGS, List.append_assoc]

end TTSWrap
